import Mathlib

/-!
# Verification of the book-reader navigation engine (src/script.js)

Shallow embedding of the single-page reader: the deep-link codec
(`parseHash` / `updateHash`), the navigation engine (`openBook`,
`openChapter`, `showBooks`, the back-button handler, `handleDeepLink`),
the search filter, and the fetch/cache policy.

Modelling conventions:
* JavaScript strings are Lean `String` (a structure over `List Char`);
  all string builtins used by the program (`trim`, `toLowerCase`,
  `includes`, `split`, `join`, template-literal number printing,
  `Number(...)`, `decodeURIComponent`) are modelled explicitly below.
* JavaScript numbers that the program manipulates are integers or `NaN`;
  they are modelled by `JsNumV` (`int n` or `nan`).  `Number(s)` is
  modelled for whitespace-trimmed optionally signed decimal integer
  strings; every other input is mapped to `nan`.  The engine only ever
  compares these numbers with integer ids / chapter numbers using strict
  equality, for which any non-integer numeric value behaves exactly like
  `nan` (it is equal to none of them), so this folding is observationally
  faithful on the embedded program.
* A thrown exception is `none` / `Except.error`; `decodeURIComponent`
  throwing URIError makes `parseHash` return `none`.
* The DOM is abstracted to the observable fields the program writes:
  `main.className` (`Screen`), the title text, whether the
  "Chapter not found." message is displayed, the back-button visibility,
  the alert list, and the URL fragment written via
  `history.replaceState`.
-/

/-- A JavaScript number as used by the program: an integer or `NaN`. -/
inductive JsNumV where
  | nan
  | int (n : Int)
  deriving DecidableEq, Repr

/-- Truthiness of a possibly-absent JS number (`undefined`, `NaN` and `0`
are falsy). -/
def jsTruthyNum : Option JsNumV → Bool
  | none => false
  | some JsNumV.nan => false
  | some (JsNumV.int n) => decide (n ≠ 0)

/-- Whitespace for the purposes of JS `trim` / `Number` (the common
white-space code points the program can meet). -/
def isJsSpace (c : Char) : Bool :=
  c = ' ' || c = '\t' || c = '\n' || c = '\r' || c = '\x0b' || c = '\x0c'

/-- JS `String.prototype.trim` on the character list. -/
def trimChars (l : List Char) : List Char :=
  ((l.dropWhile isJsSpace).reverse.dropWhile isJsSpace).reverse

/-- JS `String.prototype.trim`. -/
def jsTrim (s : String) : String := String.mk (trimChars s.data)

/-- JS `String.prototype.toLowerCase` (character-wise lowering). -/
def jsToLower (s : String) : String := String.mk (s.data.map Char.toLower)

/-- Decimal digit character for `d < 10` (used to print numbers the way a
template literal does). -/
def digitChar (d : Nat) : Char :=
  match d with
  | 0 => '0' | 1 => '1' | 2 => '2' | 3 => '3' | 4 => '4'
  | 5 => '5' | 6 => '6' | 7 => '7' | 8 => '8' | _ => '9'

/-- Decimal printing of a natural number, accumulator form; `fuel`
only drives the recursion (any fuel above the digit count computes the
number, and `n` itself always suffices). -/
def natCharsF : Nat → Nat → List Char → List Char
  | 0, _, acc => acc
  | fuel + 1, n, acc =>
    if n < 10 then digitChar n :: acc
    else natCharsF fuel (n / 10) (digitChar (n % 10) :: acc)

/-- Decimal printing of a natural number. -/
def natChars (n : Nat) : List Char := natCharsF (n + 1) n []

/-- Decimal printing of an integer, as a JS template literal prints it. -/
def intChars (i : Int) : List Char :=
  if i < 0 then '-' :: natChars i.natAbs else natChars i.toNat

/-- JS stringification of an integer. -/
def intToString (i : Int) : String := String.mk (intChars i)

/-- Is `c` a decimal digit? -/
def isDigitCh (c : Char) : Bool := 48 ≤ c.toNat && c.toNat ≤ 57

/-- Numeric value of a digit character. -/
def digitVal (c : Char) : Nat := c.toNat - 48

/-- Value of a digit string, most significant first. -/
def digitsVal (l : List Char) : Nat := l.foldl (fun a c => 10 * a + digitVal c) 0

/-- JS `Number(s)` (ToNumber on a string): trims whitespace, empty gives
`0`, optionally signed decimal integers give their value, anything else
is modelled as `NaN` (see the module comment for why this is faithful
here). -/
def jsStringToNumber (s : String) : JsNumV :=
  let t := trimChars s.data
  if t = [] then JsNumV.int 0
  else if t.head? = some '-' then
    (if t.tail ≠ [] && t.tail.all isDigitCh then
      JsNumV.int (-(digitsVal t.tail : Int)) else JsNumV.nan)
  else if t.head? = some '+' then
    (if t.tail ≠ [] && t.tail.all isDigitCh then
      JsNumV.int (digitsVal t.tail) else JsNumV.nan)
  else if t.all isDigitCh then JsNumV.int (digitsVal t) else JsNumV.nan

/-- Bool test: is `n` a (possibly empty-position) list starting the hay? -/
def prefixCheck : List Char → List Char → Bool
  | [], _ => true
  | _ :: _, [] => false
  | a :: as, b :: bs => a == b && prefixCheck as bs

/-- Bool test used to model JS `String.prototype.includes`. -/
def infixCheck (needle : List Char) : List Char → Bool
  | [] => needle.isEmpty
  | b :: bs => prefixCheck needle (b :: bs) || infixCheck needle bs

/-- JS `hay.includes(needle)`. -/
def jsIncludes (hay needle : String) : Bool := infixCheck needle.data hay.data

/-- Hexadecimal digit value, as `decodeURIComponent` reads `%XX`. -/
def hexDigitVal (c : Char) : Option Nat :=
  if 48 ≤ c.toNat ∧ c.toNat ≤ 57 then some (c.toNat - 48)
  else if 65 ≤ c.toNat ∧ c.toNat ≤ 70 then some (c.toNat - 55)
  else if 97 ≤ c.toNat ∧ c.toNat ≤ 102 then some (c.toNat - 87)
  else none

/-- First pass of `decodeURIComponent`: turn each `%XX` into a byte
(`Sum.inl`), keep every other character (`Sum.inr`); fails (URIError)
when `%` is not followed by two hex digits. -/
def tokenize : List Char → Option (List (Sum Nat Char))
  | [] => some []
  | c :: rest =>
    if c = '%' then
      match rest with
      | c1 :: c2 :: rest2 =>
        match hexDigitVal c1, hexDigitVal c2 with
        | some h1, some h2 => (tokenize rest2).map (fun ts => Sum.inl (16 * h1 + h2) :: ts)
        | _, _ => none
      | _ => none
    else (tokenize rest).map (fun ts => Sum.inr c :: ts)

/-- Range check for the second byte of a three-byte UTF-8 sequence. -/
def utf8Cont3 (b b2 : Nat) : Bool :=
  if b = 224 then 160 ≤ b2 && b2 ≤ 191
  else if b = 237 then 128 ≤ b2 && b2 ≤ 159
  else 128 ≤ b2 && b2 ≤ 191

/-- Range check for the second byte of a four-byte UTF-8 sequence. -/
def utf8Cont4 (b b2 : Nat) : Bool :=
  if b = 240 then 144 ≤ b2 && b2 ≤ 191
  else if b = 244 then 128 ≤ b2 && b2 ≤ 143
  else 128 ≤ b2 && b2 ≤ 191

/-- Pull one percent-encoded continuation byte from the token stream (a
raw character cannot continue a UTF-8 sequence). -/
def byteArg : List (Sum Nat Char) → Option (Nat × List (Sum Nat Char))
  | Sum.inl b :: r => some (b, r)
  | _ => none

/-- Second pass of `decodeURIComponent`: strict UTF-8 decoding of the
percent-encoded bytes; continuation bytes must themselves be
percent-encoded; malformed sequences fail (URIError).  The `fuel`
parameter only drives the recursion; every step consumes at least one
token, so any fuel of at least the list length computes the function. -/
def decodeTokensF : Nat → List (Sum Nat Char) → Option (List Char)
  | _, [] => some []
  | 0, _ :: _ => none
  | fuel + 1, t :: rest =>
    match t with
    | Sum.inr c => (decodeTokensF fuel rest).map (fun l => c :: l)
    | Sum.inl b =>
      if b < 128 then (decodeTokensF fuel rest).map (fun l => Char.ofNat b :: l)
      else if 194 ≤ b ∧ b ≤ 223 then
        match byteArg rest with
        | some (b2, rest2) =>
          if 128 ≤ b2 ∧ b2 ≤ 191 then
            (decodeTokensF fuel rest2).map
              (fun l => Char.ofNat ((b - 192) * 64 + (b2 - 128)) :: l)
          else none
        | none => none
      else if 224 ≤ b ∧ b ≤ 239 then
        match byteArg rest with
        | some (b2, rest2) =>
          match byteArg rest2 with
          | some (b3, rest3) =>
            if utf8Cont3 b b2 && (128 ≤ b3 && b3 ≤ 191) then
              (decodeTokensF fuel rest3).map
                (fun l => Char.ofNat ((b - 224) * 4096 + (b2 - 128) * 64 + (b3 - 128)) :: l)
            else none
          | none => none
        | none => none
      else if 240 ≤ b ∧ b ≤ 244 then
        match byteArg rest with
        | some (b2, rest2) =>
          match byteArg rest2 with
          | some (b3, rest3) =>
            match byteArg rest3 with
            | some (b4, rest4) =>
              if utf8Cont4 b b2 && (128 ≤ b3 && b3 ≤ 191) && (128 ≤ b4 && b4 ≤ 191) then
                (decodeTokensF fuel rest4).map
                  (fun l => Char.ofNat
                    ((b - 240) * 262144 + (b2 - 128) * 4096 + (b3 - 128) * 64 + (b4 - 128)) :: l)
              else none
            | none => none
          | none => none
        | none => none
      else none

/-- Second pass of `decodeURIComponent` at adequate fuel. -/
def decodeTokens (l : List (Sum Nat Char)) : Option (List Char) :=
  decodeTokensF l.length l

/-- JS `decodeURIComponent(v)` where `v` may be `undefined` (the program
passes the second destructured component, which is `undefined` for a
pair without `=`); `undefined` is first coerced to the string
`"undefined"`.  `none` is a thrown URIError. -/
def decodeURIComponentJS (v : Option String) : Option String :=
  let s := v.getD "undefined"
  ((tokenize s.data).bind decodeTokens).map String.mk

/-! ## Data model (books-index.json entries, per-book content, cache) -/

/-- One chapter of a book (`{ number, verses }`). -/
structure Chapter where
  number : Int
  verses : List String
  deriving DecidableEq, Repr

/-- Full content of one book (`{ id, name, chapters }`). -/
structure BookContent where
  id : Int
  name : String
  chapters : List Chapter
  deriving DecidableEq, Repr

/-- One entry of `books-index.json` (`{ id, name, file }`). -/
structure BookSummary where
  id : Int
  name : String
  file : String
  deriving DecidableEq, Repr

/-- `bookCache` is a JS object keyed by the (stringified) numeric book
id; modelled as an insertion-ordered association list with overwriting
assignment.  Keys written by the program are always integers (a fetch
only succeeds after an index entry with an integer id matched). -/
def cacheLookup (c : List (Int × BookContent)) (k : Int) : Option BookContent :=
  (c.find? (fun p => p.1 == k)).map (fun p => p.2)

/-- JS object assignment `cache[k] = b` (overwrite or append). -/
def cacheInsert (c : List (Int × BookContent)) (k : Int) (b : BookContent) :
    List (Int × BookContent) :=
  if (c.find? (fun p => p.1 == k)).isSome then
    c.map (fun p => if p.1 == k then (k, b) else p)
  else c ++ [(k, b)]

/-! ## Deep-link codec (`parseHash`, `updateHash`) -/

/-- `location.hash.replace(/^#/, "")`: drop one leading `#`. -/
def stripLeadingHash : List Char → List Char
  | '#' :: r => r
  | r => r

/-- JS `String.prototype.split(sep)` for a one-character separator. -/
def splitOnChar (sep : Char) : List Char → List (List Char)
  | [] => [[]]
  | c :: rest =>
    match splitOnChar sep rest with
    | [] => [[]]
    | cur :: done => if c = sep then [] :: cur :: done else (c :: cur) :: done

/-- JS object assignment `result[k] = v` on the accumulated record. -/
def setKey (m : List (String × String)) (k v : String) : List (String × String) :=
  if m.any (fun p => p.1 = k) then
    m.map (fun p => if p.1 = k then (k, v) else p)
  else m ++ [(k, v)]

/-- One step of `pairs.forEach(([k,v]) => { if (k) result[k] = decodeURIComponent(v); })`:
`k` is the first component of the split (an empty string is falsy and
skipped), `v` the second or `undefined`.  `none` is a thrown URIError. -/
def addPair (m : List (String × String)) (pr : List (List Char)) :
    Option (List (String × String)) :=
  match pr with
  | [] => some m
  | k :: rest =>
    if k = [] then some m
    else
      match decodeURIComponentJS (rest.head?.map String.mk) with
      | none => none
      | some dv => some (setKey m (String.mk k) dv)

/-- `parseHash` from src/script.js lines 211-218, with `location.hash`
passed in.  The result is the `result` object as an ordered record;
`none` models the uncaught URIError from `decodeURIComponent`. -/
def parseHash (locationHash : String) : Option (List (String × String)) :=
  let hash := stripLeadingHash locationHash.data
  if hash = [] then some []
  else List.foldlM addPair [] ((splitOnChar '&' hash).map (fun p => splitOnChar '=' p))

/-- `${n}` for the values `updateHash` receives (integers or `NaN`). -/
def numToChars : JsNumV → List Char
  | JsNumV.nan => "NaN".data
  | JsNumV.int n => intChars n

/-- Template printing of a possibly-absent number (`undefined` prints as
"undefined"; unreachable behind the truthiness guard). -/
def numOptChars : Option JsNumV → List Char
  | none => "undefined".data
  | some v => numToChars v

/-- `parts.join("&")`. -/
def joinAmp : List (List Char) → List Char
  | [] => []
  | [p] => p
  | p :: q :: r => p ++ '&' :: joinAmp (q :: r)

/-- `updateHash` from src/script.js lines 219-225: pushes `book=` /
`chapter=` parts only for truthy values and returns the string passed to
`history.replaceState` (`"#" ++ h`, or a single space when no part
remains). -/
def updateHash (bookP chapterP : Option JsNumV) : String :=
  let parts : List (List Char) :=
    (if jsTruthyNum bookP then [("book=".data) ++ numOptChars bookP] else []) ++
    (if jsTruthyNum chapterP then [("chapter=".data) ++ numOptChars chapterP] else [])
  let h := joinAmp parts
  if h = [] then " " else String.mk ('#' :: h)

/-- `location.hash` resulting from `history.replaceState(null, "", u)`:
a URL beginning with `#` sets exactly that fragment, any other URL (the
single space) leaves no fragment. -/
def fragmentOf (u : String) : String :=
  match u.data with
  | '#' :: _ => u
  | _ => ""

/-! ## Navigation engine (`openBook`, `openChapter`, `showBooks`, back,
`handleDeepLink`, search) -/

/-- `main.className` as the program sets it. -/
inductive Screen where
  | books
  | chapters
  | verses
  deriving DecidableEq, Repr

/-- The observable application state: the module-level mutables
(`booksIndex`, `bookCache`, `currentBookId`, `currentChapter`) plus the
DOM/browser observables the program writes (title, `main.className`,
whether the "Chapter not found." message is displayed, back-button
visibility, the URL fragment, the alerts shown so far). -/
structure AppState where
  booksIndex : List BookSummary
  bookCache : List (Int × BookContent)
  currentBookId : Option JsNumV
  currentChapter : Option JsNumV
  title : String
  screen : Screen
  noticeShown : Bool
  backHidden : Bool
  url : String
  alerts : List String
  deriving DecidableEq, Repr

/-- The `options` argument of `openBook`; `chapter` comes from the parsed
hash, so it is a string when present. -/
structure OpenOptions where
  chapter : Option String := none
  showChaptersOnly : Bool := false
  deriving DecidableEq, Repr

/-- Truthiness of `options.chapter` (`undefined` and `""` are falsy). -/
def jsTruthyStr : Option String → Bool
  | none => false
  | some s => decide (s ≠ "")

/-- An argument passed for `bookId`: a number (`b.id`, `currentBookId`),
the string from the hash, or `null` (degenerate back-press case). -/
inductive JsArg where
  | num (v : JsNumV)
  | str (s : String)
  | nil
  deriving DecidableEq, Repr

/-- `Number(bookId)` on an `openBook` argument (`Number(null) = 0`). -/
def toNumberArg : JsArg → JsNumV
  | JsArg.num v => v
  | JsArg.str s => jsStringToNumber s
  | JsArg.nil => JsNumV.int 0

/-- `showBooks` (src/script.js lines 125-133): reset ids, title, class,
hide the back button.  The URL and `main`'s inner content are not
touched. -/
def showBooks (s : AppState) : AppState :=
  { s with currentBookId := none, currentChapter := none,
           title := "Books", backHidden := true, screen := Screen.books }

/-- `renderChaptersView` (lines 136-157): chapters page class, book name
title, `main.innerHTML` replaced by the chapter buttons (so no notice is
displayed). -/
def renderChaptersView (s : AppState) (book : BookContent) : AppState :=
  { s with screen := Screen.chapters, title := book.name, noticeShown := false }

/-- The chapter lookup of `openChapter`:
`book.chapters.find(c => c.number === Number(chapterNumber))`; strict
equality with `NaN` matches nothing. -/
def chapterMatch (book : BookContent) : JsNumV → Option Chapter
  | JsNumV.nan => none
  | JsNumV.int m => book.chapters.find? (fun c => c.number == m)

/-- `openChapter` (lines 160-191).  Returns unchanged when the book is
not cached; on a missing chapter it displays "Chapter not found." and
returns **before** `updateHash`; on success it renders the verses and
writes the new fragment. -/
def openChapter (s : AppState) (bookId : Int) (chapterNumber : JsNumV) : AppState :=
  match cacheLookup s.bookCache bookId with
  | none => s
  | some book =>
    let s1 := { s with currentChapter := some chapterNumber,
                       title := String.mk (book.name.data ++ " â€” ".data ++ numToChars chapterNumber),
                       screen := Screen.verses }
    match chapterMatch book chapterNumber with
    | none => { s1 with noticeShown := true }
    | some _ =>
      { s1 with noticeShown := false,
                url := fragmentOf (updateHash (some (JsNumV.int bookId)) (some chapterNumber)) }

/-- `openBook` (lines 86-123), with the network modelled by the `fetch`
oracle (`Except.error` = rejected fetch / JSON syntax error).  The
single sequential execution of one invocation: set `currentBookId`,
show the back button, load from cache or fetch (caching on success),
then render chapters and dispatch on `options`; any failure alerts once
and falls back to `showBooks`.

This oracle delivers only shape-valid payloads, which is adequate for
the load-success paths; the failure paths in full — including a payload
that parses as JSON but is not a valid `BookContent` shape, which the
source caches at line 100 before `renderChaptersView` throws on it at
line 142 — are modelled by `openBookRaw` below, whose oracle returns
raw payloads. -/
def openBook (fetch : String → Except String BookContent) (s0 : AppState)
    (bookIdArg : JsArg) (options : OpenOptions) : AppState :=
  let idNum := toNumberArg bookIdArg
  let s := { s0 with currentBookId := some idNum, title := "Loading...",
                     backHidden := false }
  let attempt : Except String (AppState × BookContent) :=
    match idNum with
    | JsNumV.nan => Except.error "Book meta not found"
    | JsNumV.int n =>
      match cacheLookup s.bookCache n with
      | some book => Except.ok (s, book)
      | none =>
        match s.booksIndex.find? (fun b => b.id == n) with
        | none => Except.error "Book meta not found"
        | some meta =>
          match fetch meta.file with
          | Except.error e => Except.error e
          | Except.ok book =>
            Except.ok ({ s with bookCache := cacheInsert s.bookCache n book }, book)
  match attempt with
  | Except.error msg =>
    showBooks { s with title := "Books",
                       alerts := s.alerts ++ [String.mk ("Failed to open book: ".data ++ msg.data)] }
  | Except.ok (s1, book) =>
    let s2 := renderChaptersView s1 book
    if jsTruthyStr options.chapter then
      openChapter s2 book.id (jsStringToNumber (options.chapter.getD ""))
    else if options.showChaptersOnly then s2
    else
      openChapter s2 book.id
        (JsNumV.int (match book.chapters.head? with
                     | some ch => ch.number
                     | none => 1))

/-- The back-button click handler (lines 35-42): verse view open (tested
by `currentChapter !== null`) goes back to the chapter list, otherwise
to the book list. -/
def backClick (fetch : String → Except String BookContent) (s : AppState) : AppState :=
  if s.currentChapter.isSome then
    openBook fetch s
      (match s.currentBookId with
       | none => JsArg.nil
       | some v => JsArg.num v)
      { showChaptersOnly := true }
  else showBooks s

/-- `handleDeepLink` (lines 226-231): parse the current fragment and
navigate when a truthy `book` value is present.  `none` propagates the
URIError thrown by `parseHash`. -/
def handleDeepLink (fetch : String → Except String BookContent) (s : AppState) :
    Option AppState :=
  match parseHash s.url with
  | none => none
  | some m =>
    if jsTruthyStr (m.lookup "book") then
      some (openBook fetch s (JsArg.str ((m.lookup "book").getD ""))
        { chapter := m.lookup "chapter" })
    else some s

/-- The search-input handler's filtering (lines 194-208), returning the
list passed to `renderBooksGrid`: empty (after trim/lower) query renders
the whole index, otherwise a summary matches on its lowered name or, if
its book is cached, on some lowered verse text. -/
def searchFilter (booksIndex : List BookSummary) (bookCache : List (Int × BookContent))
    (value : String) : List BookSummary :=
  let q := jsToLower (jsTrim value)
  if q = "" then booksIndex
  else
    booksIndex.filter (fun b =>
      if jsIncludes (jsToLower b.name) q then true
      else
        match cacheLookup bookCache b.id with
        | some cached =>
          cached.chapters.any (fun ch => ch.verses.any (fun v => jsIncludes (jsToLower v) q))
        | none => false)

/-! ## Navigation states and the deep-link round trip -/

/-- The spec's `NavigationState`. -/
inductive NavState where
  | library
  | chapterList (bookId : Int)
  | verseList (bookId : Int) (chapterNumber : Int)
  deriving DecidableEq, Repr

/-- The `{book, chapter}` params a state carries into `updateHash`. -/
def stateParams : NavState → Option JsNumV × Option JsNumV
  | NavState.library => (none, none)
  | NavState.chapterList b => (some (JsNumV.int b), none)
  | NavState.verseList b c => (some (JsNumV.int b), some (JsNumV.int c))

/-- Encoding of a navigation state: the URL `updateHash` writes for its
params. -/
def encodeNav (s : NavState) : String :=
  updateHash (stateParams s).1 (stateParams s).2

/-- The record a state should decode to (its book id and chapter number
as numbers). -/
def stateRec (s : NavState) : Option JsNumV × Option JsNumV := stateParams s

/-- Decoding of a fragment into numeric `bookId` / `chapterNumber`:
`parseHash` followed by the `Number(...)` conversions the caller chain
(`handleDeepLink` → `openBook` → `openChapter`) applies to the two
recognised keys.  `none` is a thrown URIError. -/
def decodeNavRec (frag : String) : Option (Option JsNumV × Option JsNumV) :=
  (parseHash frag).map
    (fun m => ((m.lookup "book").map jsStringToNumber,
               (m.lookup "chapter").map jsStringToNumber))

/-- Read the spec-level navigation state off the observable app state. -/
def navStateOf (s : AppState) : Option NavState :=
  match s.screen, s.currentBookId, s.currentChapter with
  | Screen.books, _, _ => some NavState.library
  | Screen.chapters, some (JsNumV.int b), _ => some (NavState.chapterList b)
  | Screen.verses, some (JsNumV.int b), some (JsNumV.int c) =>
    some (NavState.verseList b c)
  | _, _, _ => none

/-- The two ways `openBook`'s try-block obtains content for book `n`:
a cache hit, or a fetch of the matching index entry's file. -/
def contentLoads (fetch : String → Except String BookContent) (s : AppState)
    (n : Int) (book : BookContent) : Prop :=
  cacheLookup s.bookCache n = some book ∨
  (cacheLookup s.bookCache n = none ∧
   ∃ meta, s.booksIndex.find? (fun b => b.id == n) = some meta ∧
           fetch meta.file = Except.ok book)

/-- The two failure causes of `openBook`'s try-block for an integer id
that is not cached: no matching index entry (NotFoundError), or the
fetch/parse of the matched entry fails (FetchError). -/
def selectBookFailCause (fetch : String → Except String BookContent) (s : AppState)
    (n : Int) : Prop :=
  s.booksIndex.find? (fun b => b.id == n) = none ∨
  (∃ meta e, s.booksIndex.find? (fun b => b.id == n) = some meta ∧
             fetch meta.file = Except.error e)

/-! ## Fetch/cache interleaving (duplicate-fetch question)

`openBook` suspends between the cache/index check and the cache write:
the cache is written only when the fetch resolves.  The events below are
exactly those two halves of its execution, so a trace of `nav`/`resolve`
events is a faithful interleaving of concurrent `openBook` calls as far
as the cache and the number of issued fetches are concerned. -/

/-- Cache plus the number of network fetches issued so far. -/
structure FetchTrace where
  cache : List (Int × BookContent)
  fetches : Nat
  deriving DecidableEq, Repr

/-- `nav id`: an `openBook id` reaches its cache/index check (lines
95-99); `resolve id book`: a previously issued fetch for `id` resolves
and the cache is written (line 100). -/
inductive NavEv where
  | nav (id : Int)
  | resolve (id : Int) (book : BookContent)
  deriving DecidableEq, Repr

/-- One event of the interleaving. -/
def navFetchStep (ix : List BookSummary) (st : FetchTrace) : NavEv → FetchTrace
  | NavEv.nav id =>
    if (cacheLookup st.cache id).isSome then st
    else
      match ix.find? (fun b => b.id == id) with
      | none => st
      | some _ => { st with fetches := st.fetches + 1 }
  | NavEv.resolve id book => { st with cache := cacheInsert st.cache id book }

/-- Run a trace of events. -/
def runNav (ix : List BookSummary) (st : FetchTrace) (l : List NavEv) : FetchTrace :=
  l.foldl (navFetchStep ix) st

/-! ## Concrete fixtures (the spec's scenarios) -/

/-- The spec's one-book scenario content. -/
def genesisContent : BookContent :=
  { id := 1, name := "Genesis", chapters := [{ number := 1, verses := ["In the beginning"] }] }

/-- The spec's one-book scenario index. -/
def index1 : List BookSummary := [{ id := 1, name := "Genesis", file := "g.json" }]

/-- Fetch oracle serving the one-book scenario. -/
def fetch1 (f : String) : Except String BookContent :=
  if f = "g.json" then Except.ok genesisContent
  else Except.error (String.mk ("Failed to fetch ".data ++ f.data))

/-- A fresh app state over an index, with a given starting fragment. -/
def initState (ix : List BookSummary) (u : String) : AppState :=
  { booksIndex := ix, bookCache := [], currentBookId := none, currentChapter := none,
    title := "Books", screen := Screen.books, noticeShown := false, backHidden := true,
    url := u, alerts := [] }

/-- A book with id `0`: its chapter-list / verse-list states encode with
the `book` key dropped (`0` is falsy). -/
def zeroContent : BookContent :=
  { id := 0, name := "Zero", chapters := [{ number := 1, verses := ["z"] }] }

/-- Index containing only the id-`0` book. -/
def index0 : List BookSummary := [{ id := 0, name := "Zero", file := "z.json" }]

/-- Fetch oracle serving the id-`0` book. -/
def fetch0 (f : String) : Except String BookContent :=
  if f = "z.json" then Except.ok zeroContent
  else Except.error (String.mk ("Failed to fetch ".data ++ f.data))

/-! ## Refined failure model: raw fetched payloads

`fetchJson` only guarantees a successfully parsed JSON value; nothing
validates the `BookContent` shape.  `openBook` assigns that payload to
`bookCache[currentBookId]` (line 100) *before* `renderChaptersView`
reads `book.chapters.length` (line 142), so a payload that is valid
JSON but has no usable `chapters` array is cached first and only then
makes the render throw a TypeError, which the same `catch` handles.
The definitions below refine `openBook` with a payload-typed oracle and
cache so this path is representable; thrown JS exceptions leave earlier
mutations in place, so the throwing helpers return the partially
updated state together with a thrown flag. -/

/-- A fetched, JSON-parsed payload as the engine receives it: a valid
`BookContent` shape, or valid JSON whose `chapters` field is not a
usable array (rendering such a payload throws a TypeError); `name` is
whatever `${book.name}` prints for the junk payload. -/
inductive RawPayload where
  | wellFormed (book : BookContent)
  | badShape (name : String)
  deriving DecidableEq, Repr

/-- Stand-in for the engine-specific TypeError message raised when the
missing `chapters` array of a shape-invalid payload is touched. -/
def typeErrorMsg : String := "book.chapters is undefined"

/-- The refined application state: as `AppState`, but the cache stores
raw payloads (the source caches the JSON payload before any shape
validation can happen). -/
structure RawState where
  booksIndex : List BookSummary
  bookCache : List (Int × RawPayload)
  currentBookId : Option JsNumV
  currentChapter : Option JsNumV
  title : String
  screen : Screen
  noticeShown : Bool
  backHidden : Bool
  url : String
  alerts : List String
  deriving DecidableEq, Repr

/-- JS object read on the payload cache. -/
def rawCacheLookup (c : List (Int × RawPayload)) (k : Int) : Option RawPayload :=
  (c.find? (fun p => p.1 == k)).map (fun p => p.2)

/-- JS object assignment `cache[k] = v` on the payload cache. -/
def rawCacheInsert (c : List (Int × RawPayload)) (k : Int) (v : RawPayload) :
    List (Int × RawPayload) :=
  if (c.find? (fun p => p.1 == k)).isSome then
    c.map (fun p => if p.1 == k then (k, v) else p)
  else c ++ [(k, v)]

/-- `showBooks` on the refined state. -/
def showBooksRaw (s : RawState) : RawState :=
  { s with currentBookId := none, currentChapter := none,
           title := "Books", backHidden := true, screen := Screen.books }

/-- `renderChaptersView` on a raw payload: a well-formed payload renders
the chapter buttons; a shape-invalid payload has already set the
chapters class and the title when `book.chapters.length` throws (the
Bool is the thrown flag; `main`'s content, hence `noticeShown`, is not
yet replaced at that point). -/
def renderChaptersViewRaw (s : RawState) (p : RawPayload) : RawState × Bool :=
  match p with
  | RawPayload.wellFormed book =>
    ({ s with screen := Screen.chapters, title := book.name, noticeShown := false }, false)
  | RawPayload.badShape name =>
    ({ s with screen := Screen.chapters, title := name }, true)

/-- `openChapter` on the refined state; the Bool flags the TypeError
thrown at `book.chapters.find` when the cached payload for `bookId` is
shape-invalid (`currentChapter`, the title and the verses class are
already set at that point). -/
def openChapterRaw (s : RawState) (bookId : Int) (chapterNumber : JsNumV) :
    RawState × Bool :=
  match rawCacheLookup s.bookCache bookId with
  | none => (s, false)
  | some (RawPayload.wellFormed book) =>
    let s1 := { s with currentChapter := some chapterNumber,
                       title := String.mk (book.name.data ++ " â€” ".data ++
                         numToChars chapterNumber),
                       screen := Screen.verses }
    (match chapterMatch book chapterNumber with
     | none => ({ s1 with noticeShown := true }, false)
     | some _ =>
       ({ s1 with noticeShown := false,
                  url := fragmentOf (updateHash (some (JsNumV.int bookId))
                    (some chapterNumber)) }, false))
  | some (RawPayload.badShape name) =>
    ({ s with currentChapter := some chapterNumber,
              title := String.mk (name.data ++ " â€” ".data ++
                numToChars chapterNumber),
              screen := Screen.verses }, true)

/-- `openBook` refined (lines 86-123): the oracle returns a JSON-parsed
payload that may be shape-invalid.  The payload is cached before
rendering, so a TypeError thrown by `renderChaptersView` (or by
`openChapter` on a junk cache entry) reaches the catch with the cache
already modified; the catch then alerts once and reverts to the book
list, exactly as for the other failures. -/
def openBookRaw (fetch : String → Except String RawPayload) (s0 : RawState)
    (bookIdArg : JsArg) (options : OpenOptions) : RawState :=
  let idNum := toNumberArg bookIdArg
  let s := { s0 with currentBookId := some idNum, title := "Loading...",
                     backHidden := false }
  let attempt : Except (RawState × String) (RawState × RawPayload) :=
    match idNum with
    | JsNumV.nan => Except.error (s, "Book meta not found")
    | JsNumV.int n =>
      match rawCacheLookup s.bookCache n with
      | some p => Except.ok (s, p)
      | none =>
        match s.booksIndex.find? (fun b => b.id == n) with
        | none => Except.error (s, "Book meta not found")
        | some meta =>
          match fetch meta.file with
          | Except.error e => Except.error (s, e)
          | Except.ok p =>
            Except.ok ({ s with bookCache := rawCacheInsert s.bookCache n p }, p)
  let afterRender : Except (RawState × String) (RawState × RawPayload) :=
    match attempt with
    | Except.error se => Except.error se
    | Except.ok (s1, p) =>
      match renderChaptersViewRaw s1 p with
      | (s2, true) => Except.error (s2, typeErrorMsg)
      | (s2, false) => Except.ok (s2, p)
  let afterOptions : Except (RawState × String) RawState :=
    match afterRender with
    | Except.error se => Except.error se
    | Except.ok (s2, RawPayload.badShape _) => Except.ok s2
    | Except.ok (s2, RawPayload.wellFormed book) =>
      if jsTruthyStr options.chapter then
        match openChapterRaw s2 book.id (jsStringToNumber (options.chapter.getD "")) with
        | (s3, true) => Except.error (s3, typeErrorMsg)
        | (s3, false) => Except.ok s3
      else if options.showChaptersOnly then Except.ok s2
      else
        match openChapterRaw s2 book.id
            (JsNumV.int (match book.chapters.head? with
                         | some ch => ch.number
                         | none => 1)) with
        | (s3, true) => Except.error (s3, typeErrorMsg)
        | (s3, false) => Except.ok s3
  match afterOptions with
  | Except.error (se, msg) =>
    showBooksRaw { se with title := "Books",
                           alerts := se.alerts ++
                             [String.mk ("Failed to open book: ".data ++ msg.data)] }
  | Except.ok s3 => s3

/-- A fresh refined state over an index with a starting fragment. -/
def initRawState (ix : List BookSummary) (u : String) : RawState :=
  { booksIndex := ix, bookCache := [], currentBookId := none, currentChapter := none,
    title := "Books", screen := Screen.books, noticeShown := false, backHidden := true,
    url := u, alerts := [] }

/-- Fetch oracle delivering, for `g.json`, valid JSON of an invalid
shape (say the payload parsed from `[123, "id": 1, "name": "Genesis" 125]`
with no chapters array). -/
def fetchBadShape (f : String) : Except String RawPayload :=
  if f = "g.json" then Except.ok (RawPayload.badShape "Genesis")
  else Except.error (String.mk ("Failed to fetch ".data ++ f.data))

/-! ## Spec-side predicates (for the refinement statement about the
search filter) -/

/-- The spec's "contains the query case-insensitively". -/
def containsCI (hay needle : String) : Prop :=
  (jsToLower needle).data <:+: (jsToLower hay).data

/-- The spec's matching predicate for a summary under a (trimmed) query:
name contains the query case-insensitively, or the book is present in
the cache and some verse text of some chapter contains the query
case-insensitively. -/
def specMatch (cache : List (Int × BookContent)) (q : String) (b : BookSummary) : Prop :=
  containsCI b.name q ∨
  ∃ content, cacheLookup cache b.id = some content ∧
    ∃ ch ∈ content.chapters, ∃ v ∈ ch.verses, containsCI v q

/-! ## Lemmas: decimal printing and `Number` round trip -/

theorem isDigitCh_digitChar (d : Nat) : isDigitCh (digitChar d) = true := by
  match d with
  | 0 | 1 | 2 | 3 | 4 | 5 | 6 | 7 | 8 => rfl
  | n + 9 => rfl

theorem digitVal_digitChar (d : Nat) (h : d < 10) : digitVal (digitChar d) = d := by
  interval_cases d <;> rfl

theorem natCharsF_spec (n : Nat) : ∀ fuel acc, n < fuel →
    natCharsF fuel n acc = natChars n ++ acc := by
  induction n using Nat.strong_induction_on with
  | _ n ih =>
    intro fuel acc hfuel
    cases fuel with
    | zero => omega
    | succ f =>
      by_cases h : n < 10
      · rw [natCharsF, if_pos h, natChars, natCharsF, if_pos h]
        rfl
      · have hd : n / 10 < n := Nat.div_lt_self (by omega) (by omega)
        rw [natCharsF, if_neg h,
            ih (n / 10) hd f (digitChar (n % 10) :: acc) (by omega)]
        conv_rhs => rw [natChars, natCharsF, if_neg h]
        rw [ih (n / 10) hd n [digitChar (n % 10)] (by omega)]
        simp

theorem natChars_of_lt (n : Nat) (h : n < 10) : natChars n = [digitChar n] := by
  rw [natChars, natCharsF, if_pos h]

theorem natChars_step (n : Nat) (h : ¬ n < 10) :
    natChars n = natChars (n / 10) ++ [digitChar (n % 10)] := by
  rw [natChars, natCharsF, if_neg h]
  exact natCharsF_spec (n / 10) n _ (by omega)

theorem natChars_ne_nil (n : Nat) : natChars n ≠ [] := by
  by_cases h : n < 10
  · rw [natChars_of_lt n h]; simp
  · rw [natChars_step n h]; simp

theorem natChars_all_digit (n : Nat) : ∀ c ∈ natChars n, isDigitCh c = true := by
  induction n using Nat.strong_induction_on with
  | _ n ih =>
    by_cases h : n < 10
    · rw [natChars_of_lt n h]
      intro c hc
      rw [List.mem_singleton] at hc
      exact hc ▸ isDigitCh_digitChar n
    · rw [natChars_step n h]
      intro c hc
      rcases List.mem_append.mp hc with hc | hc
      · exact ih (n / 10) (Nat.div_lt_self (by omega) (by omega)) c hc
      · rw [List.mem_singleton] at hc
        exact hc ▸ isDigitCh_digitChar (n % 10)

theorem digitsVal_append_singleton (l : List Char) (c : Char) :
    digitsVal (l ++ [c]) = 10 * digitsVal l + digitVal c := by
  simp [digitsVal, List.foldl_append]

theorem digitsVal_natChars (n : Nat) : digitsVal (natChars n) = n := by
  induction n using Nat.strong_induction_on with
  | _ n ih =>
    by_cases h : n < 10
    · rw [natChars_of_lt n h]
      simp [digitsVal, digitVal_digitChar n h]
    · rw [natChars_step n h, digitsVal_append_singleton,
          ih (n / 10) (Nat.div_lt_self (by omega) (by omega)),
          digitVal_digitChar (n % 10) (by omega)]
      omega

/-- Characters of a printed integer: decimal digits, or a leading minus. -/
theorem intChars_mem (i : Int) : ∀ c ∈ intChars i, isDigitCh c = true ∨ c = '-' := by
  intro c hc
  rw [intChars] at hc
  split at hc
  · rcases List.mem_cons.mp hc with hc | hc
    · exact Or.inr hc
    · exact Or.inl (natChars_all_digit _ c hc)
  · exact Or.inl (natChars_all_digit _ c hc)

theorem digit_ne (c : Char) (h : isDigitCh c = true) (d : Char)
    (hd : ¬ (48 ≤ d.toNat ∧ d.toNat ≤ 57)) : c ≠ d := by
  intro e
  subst e
  simp only [isDigitCh, Bool.and_eq_true, decide_eq_true_eq] at h
  exact hd h

theorem intChars_ne (i : Int) (d : Char)
    (hd : ¬ (48 ≤ d.toNat ∧ d.toNat ≤ 57)) (hm : d ≠ '-') : d ∉ intChars i := by
  intro hc
  rcases intChars_mem i d hc with h | h
  · simp only [isDigitCh, Bool.and_eq_true, decide_eq_true_eq] at h
    exact hd h
  · exact hm h

theorem dropWhile_eq_self_of (p : Char → Bool) (l : List Char)
    (h : ∀ c ∈ l, p c = false) : l.dropWhile p = l := by
  cases l with
  | nil => rfl
  | cons a rest =>
    rw [List.dropWhile_cons, h a (List.mem_cons_self a rest)]
    simp

theorem trimChars_eq_self (l : List Char) (h : ∀ c ∈ l, isJsSpace c = false) :
    trimChars l = l := by
  unfold trimChars
  rw [dropWhile_eq_self_of _ _ h, dropWhile_eq_self_of, List.reverse_reverse]
  intro c hc
  exact h c (List.mem_reverse.mp hc)

theorem isJsSpace_digit (c : Char) (h : isDigitCh c = true) : isJsSpace c = false := by
  have h' : 48 ≤ c.toNat ∧ c.toNat ≤ 57 := by
    simpa only [isDigitCh, Bool.and_eq_true, decide_eq_true_eq] using h
  simp only [isJsSpace, Bool.or_eq_false_iff, decide_eq_false_iff_not]
  refine ⟨⟨⟨⟨⟨?_, ?_⟩, ?_⟩, ?_⟩, ?_⟩, ?_⟩ <;>
    (intro e; subst e; exact absurd h' (by decide))

theorem trimChars_intChars (i : Int) : trimChars (intChars i) = intChars i := by
  refine trimChars_eq_self _ (fun c hc => ?_)
  rcases intChars_mem i c hc with h | h
  · exact isJsSpace_digit c h
  · subst h; rfl

theorem jsStringToNumber_intToString (i : Int) :
    jsStringToNumber (intToString i) = JsNumV.int i := by
  rw [jsStringToNumber]
  have hd : (String.mk (intChars i)).data = intChars i := rfl
  rw [intToString, hd, trimChars_intChars]
  by_cases hneg : i < 0
  · rw [intChars, if_pos hneg]
    have h2 : natChars i.natAbs ≠ [] := natChars_ne_nil _
    have h3 : (natChars i.natAbs).all isDigitCh = true :=
      List.all_eq_true.mpr (fun c hc => natChars_all_digit _ c hc)
    simp only [List.head?_cons, List.tail_cons]
    rw [if_neg (show ¬('-' :: natChars i.natAbs = []) by simp)]
    rw [if_pos trivial]
    rw [if_pos (show (decide (natChars i.natAbs ≠ []) && (natChars i.natAbs).all isDigitCh) = true
      by simp [h2, h3])]
    rw [digitsVal_natChars]
    congr 1
    omega
  · rw [intChars, if_neg hneg]
    obtain ⟨c, cs, hl⟩ : ∃ c cs, natChars i.toNat = c :: cs := by
      cases h : natChars i.toNat with
      | nil => exact absurd h (natChars_ne_nil _)
      | cons c cs => exact ⟨c, cs, rfl⟩
    have hcd : isDigitCh c = true :=
      natChars_all_digit _ c (hl ▸ List.mem_cons_self c cs)
    have hcm : c ≠ '-' := digit_ne c hcd '-' (by decide)
    have hcp : c ≠ '+' := digit_ne c hcd '+' (by decide)
    have h3 : (natChars i.toNat).all isDigitCh = true :=
      List.all_eq_true.mpr (fun d hd2 => natChars_all_digit _ d hd2)
    rw [hl]
    simp only [List.head?_cons, List.tail_cons]
    rw [if_neg (show ¬(c :: cs = []) by simp)]
    rw [if_neg (show ¬(some c = some '-') by simp [hcm])]
    rw [if_neg (show ¬(some c = some '+') by simp [hcp])]
    rw [if_pos (show (c :: cs).all isDigitCh = true from hl ▸ h3)]
    rw [← hl, digitsVal_natChars]
    congr 1
    omega

/-! ## Lemmas: `split`, `decodeURIComponent`, `parseHash` -/

theorem splitOnChar_ne_nil (sep : Char) (l : List Char) : splitOnChar sep l ≠ [] := by
  cases l with
  | nil => simp [splitOnChar]
  | cons c rest =>
    cases h : splitOnChar sep rest with
    | nil => simp [splitOnChar, h]
    | cons cur done =>
      rw [splitOnChar, h]
      by_cases hc : c = sep <;> simp [hc]

theorem splitOnChar_no_sep (sep : Char) (l : List Char) (h : sep ∉ l) :
    splitOnChar sep l = [l] := by
  induction l with
  | nil => rfl
  | cons c rest ih =>
    have hc : ¬ (c = sep) := fun e => h (e ▸ List.mem_cons_self c rest)
    have hr : sep ∉ rest := fun hm => h (List.mem_cons_of_mem c hm)
    rw [splitOnChar, ih hr]
    simp [hc]

theorem splitOnChar_sep_append (sep : Char) (l₁ l₂ : List Char) (h : sep ∉ l₁) :
    splitOnChar sep (l₁ ++ sep :: l₂) = l₁ :: splitOnChar sep l₂ := by
  induction l₁ with
  | nil =>
    cases h2 : splitOnChar sep l₂ with
    | nil => exact absurd h2 (splitOnChar_ne_nil sep l₂)
    | cons cur done =>
      rw [List.nil_append, splitOnChar, h2]
      simp
  | cons a l₁ ih =>
    have ha : ¬ (a = sep) := fun e => h (e ▸ List.mem_cons_self a l₁)
    have hl : sep ∉ l₁ := fun hm => h (List.mem_cons_of_mem a hm)
    rw [List.cons_append, splitOnChar, ih hl]
    simp [ha]

theorem splitOnChar_subset (sep : Char) (l : List Char) :
    ∀ p ∈ splitOnChar sep l, ∀ c ∈ p, c ∈ l := by
  induction l with
  | nil =>
    intro p hp c hc
    simp [splitOnChar] at hp
    subst hp
    simp at hc
  | cons a rest ih =>
    intro p hp c hc
    cases h2 : splitOnChar sep rest with
    | nil => exact absurd h2 (splitOnChar_ne_nil sep rest)
    | cons cur done =>
      rw [splitOnChar, h2] at hp
      dsimp only at hp
      by_cases ha : a = sep
      · rw [if_pos ha] at hp
        rcases List.mem_cons.mp hp with hp | hp
        · subst hp; simp at hc
        · exact List.mem_cons_of_mem a (ih p (h2 ▸ hp) c hc)
      · rw [if_neg ha] at hp
        rcases List.mem_cons.mp hp with hp | hp
        · subst hp
          rcases List.mem_cons.mp hc with hc | hc
          · exact hc ▸ List.mem_cons_self a rest
          · exact List.mem_cons_of_mem a
              (ih cur (h2 ▸ List.mem_cons_self cur done) c hc)
        · exact List.mem_cons_of_mem a
            (ih p (h2 ▸ List.mem_cons_of_mem cur hp) c hc)

theorem stripLeadingHash_subset (l : List Char) : ∀ c ∈ stripLeadingHash l, c ∈ l := by
  unfold stripLeadingHash
  split
  · intro c hc; exact List.mem_cons_of_mem _ hc
  · intro c hc; exact hc

theorem tokenize_no_percent (l : List Char) (h : ∀ c ∈ l, ¬ (c = '%')) :
    tokenize l = some (l.map Sum.inr) := by
  induction l with
  | nil => rfl
  | cons c rest ih =>
    rw [tokenize.eq_def]
    dsimp only
    rw [if_neg (h c (List.mem_cons_self c rest)),
        ih (fun d hd => h d (List.mem_cons_of_mem c hd))]
    rfl

theorem decodeTokensF_map_inr (l : List Char) (f : Nat) (hf : l.length ≤ f) :
    decodeTokensF f (l.map Sum.inr) = some l := by
  induction l generalizing f with
  | nil => cases f <;> rfl
  | cons c rest ih =>
    cases f with
    | zero => simp at hf
    | succ f' =>
      rw [List.map_cons, decodeTokensF]
      rw [ih f' (by simpa using hf)]
      rfl

theorem decodeTokens_map_inr (l : List Char) : decodeTokens (l.map Sum.inr) = some l := by
  rw [decodeTokens]
  exact decodeTokensF_map_inr l (l.map Sum.inr).length (by simp)

theorem decodeURIComponentJS_no_percent (s : String) (h : ∀ c ∈ s.data, ¬ (c = '%')) :
    decodeURIComponentJS (some s) = some s := by
  rw [decodeURIComponentJS]
  simp only [Option.getD_some]
  rw [tokenize_no_percent s.data h]
  simp only [Option.some_bind]
  rw [decodeTokens_map_inr]
  rfl

theorem intChars_no_amp (b : Int) : '&' ∉ intChars b :=
  intChars_ne b '&' (by decide) (by decide)

theorem intChars_no_eq (b : Int) : '=' ∉ intChars b :=
  intChars_ne b '=' (by decide) (by decide)

theorem intChars_no_percent (b : Int) : ∀ c ∈ intChars b, ¬ (c = '%') :=
  fun _ hc e => intChars_ne b '%' (by decide) (by decide) (e ▸ hc)

theorem addPair_known (m : List (String × String)) (k v : List Char) (hk : ¬ (k = []))
    (hv : ∀ c ∈ v, ¬ (c = '%')) :
    addPair m [k, v] = some (setKey m (String.mk k) (String.mk v)) := by
  rw [addPair]
  rw [if_neg hk]
  simp only [List.head?_cons, Option.map_some']
  rw [decodeURIComponentJS_no_percent (String.mk v) hv]

theorem setKey_nil (k v : String) : setKey [] k v = [(k, v)] := by
  simp [setKey]

theorem setKey_append_of_not_mem (m : List (String × String)) (k v : String)
    (h : m.any (fun p => p.1 = k) = false) : setKey m k v = m ++ [(k, v)] := by
  rw [setKey, h]
  simp

theorem foldlM_addPair_one (m m1 : List (String × String)) (p1 : List (List Char))
    (h1 : addPair m p1 = some m1) : List.foldlM addPair m [p1] = some m1 := by
  rw [List.foldlM_cons, h1]
  rfl

theorem foldlM_addPair_two (m m1 m2 : List (String × String)) (p1 p2 : List (List Char))
    (h1 : addPair m p1 = some m1) (h2 : addPair m1 p2 = some m2) :
    List.foldlM addPair m [p1, p2] = some m2 := by
  rw [List.foldlM_cons, h1]
  show List.foldlM addPair m1 [p2] = some m2
  rw [List.foldlM_cons, h2]
  rfl

theorem parseHash_book (b : Int) :
    parseHash (String.mk ('#' :: ("book=".data ++ intChars b))) =
      some [("book", intToString b)] := by
  have hs : stripLeadingHash (String.mk ('#' :: ("book=".data ++ intChars b))).data
      = "book=".data ++ intChars b := rfl
  have hne : ¬ ("book=".data ++ intChars b = []) := by
    intro h
    have := congrArg List.length h
    simp at this
  have hamp : '&' ∉ "book=".data ++ intChars b := by
    intro hm
    rcases List.mem_append.mp hm with hm | hm
    · exact absurd hm (by decide)
    · exact intChars_no_amp b hm
  have hassoc : "book=".data ++ intChars b = "book".data ++ '=' :: intChars b := rfl
  rw [parseHash, hs]
  rw [if_neg hne]
  rw [splitOnChar_no_sep '&' _ hamp]
  rw [List.map_cons, List.map_nil]
  rw [hassoc, splitOnChar_sep_append '=' _ _ (by decide),
      splitOnChar_no_sep '=' _ (intChars_no_eq b)]
  rw [foldlM_addPair_one [] [("book", intToString b)] _
    (by rw [addPair_known [] _ _ (by decide) (intChars_no_percent b)]; rfl)]

theorem parseHash_book_chapter (b c : Int) :
    parseHash (String.mk ('#' :: ("book=".data ++ intChars b ++
        '&' :: ("chapter=".data ++ intChars c)))) =
      some [("book", intToString b), ("chapter", intToString c)] := by
  have hs : stripLeadingHash (String.mk ('#' :: ("book=".data ++ intChars b ++
      '&' :: ("chapter=".data ++ intChars c)))).data
      = "book=".data ++ intChars b ++ '&' :: ("chapter=".data ++ intChars c) := rfl
  have hne : ¬ ("book=".data ++ intChars b ++ '&' :: ("chapter=".data ++ intChars c) = []) := by
    intro h
    have := congrArg List.length h
    simp at this
  have hamp1 : '&' ∉ "book=".data ++ intChars b := by
    intro hm
    rcases List.mem_append.mp hm with hm | hm
    · exact absurd hm (by decide)
    · exact intChars_no_amp b hm
  have hamp2 : '&' ∉ "chapter=".data ++ intChars c := by
    intro hm
    rcases List.mem_append.mp hm with hm | hm
    · exact absurd hm (by decide)
    · exact intChars_no_amp c hm
  rw [parseHash, hs]
  rw [if_neg hne]
  rw [splitOnChar_sep_append '&' _ _ hamp1]
  rw [splitOnChar_no_sep '&' _ hamp2]
  rw [List.map_cons, List.map_cons, List.map_nil]
  have hassoc1 : "book=".data ++ intChars b = "book".data ++ '=' :: intChars b := rfl
  have hassoc2 : "chapter=".data ++ intChars c = "chapter".data ++ '=' :: intChars c := rfl
  rw [hassoc1, splitOnChar_sep_append '=' _ _ (by decide),
      splitOnChar_no_sep '=' _ (intChars_no_eq b)]
  rw [hassoc2, splitOnChar_sep_append '=' _ _ (by decide),
      splitOnChar_no_sep '=' _ (intChars_no_eq c)]
  rw [foldlM_addPair_two [] [("book", intToString b)]
    [("book", intToString b), ("chapter", intToString c)] _ _
    (by rw [addPair_known [] _ _ (by decide) (intChars_no_percent b)]; rfl)
    (by rw [addPair_known _ _ _ (by decide) (intChars_no_percent c)]; rfl)]

theorem updateHash_none_none : updateHash none none = " " := rfl

theorem updateHash_book_only (b : Int) (hb : b ≠ 0) :
    updateHash (some (JsNumV.int b)) none =
      String.mk ('#' :: ("book=".data ++ intChars b)) := by
  have hd : decide (b ≠ 0) = true := decide_eq_true hb
  simp [updateHash, jsTruthyNum, hd, joinAmp, numOptChars, numToChars]

theorem updateHash_book_chapter (b c : Int) (hb : b ≠ 0) (hc : c ≠ 0) :
    updateHash (some (JsNumV.int b)) (some (JsNumV.int c)) =
      String.mk ('#' :: ("book=".data ++ intChars b ++
        '&' :: ("chapter=".data ++ intChars c))) := by
  have hdb : decide (b ≠ 0) = true := decide_eq_true hb
  have hdc : decide (c ≠ 0) = true := decide_eq_true hc
  simp [updateHash, jsTruthyNum, hdb, hdc, joinAmp, numOptChars, numToChars]

theorem fragmentOf_hashed (r : List Char) :
    fragmentOf (String.mk ('#' :: r)) = String.mk ('#' :: r) := rfl

theorem lookup_book_two (sb sc : String) :
    List.lookup "book" [("book", sb), ("chapter", sc)] = some sb := by
  simp [List.lookup]

theorem lookup_chapter_two (sb sc : String) :
    List.lookup "chapter" [("book", sb), ("chapter", sc)] = some sc := by
  rw [List.lookup, show (("chapter" : String) == "book") = false from by decide]
  rw [List.lookup, show (("chapter" : String) == "chapter") = true from by decide]

theorem lookup_book_one (sb : String) :
    List.lookup "book" [("book", sb)] = some sb := by
  simp [List.lookup]

theorem lookup_chapter_one (sb : String) :
    List.lookup "chapter" [("book", sb)] = none := by
  rw [List.lookup, show (("chapter" : String) == "book") = false from by decide]
  rfl

theorem addPair_isSome (m : List (String × String)) (pr : List (List Char))
    (h : ∀ v ∈ pr, ∀ ch ∈ v, ¬ (ch = '%')) : (addPair m pr).isSome = true := by
  cases pr with
  | nil => rfl
  | cons k tail =>
    rw [addPair]
    by_cases hk : k = []
    · rw [if_pos hk]; rfl
    · rw [if_neg hk]
      cases tail with
      | nil =>
        simp only [List.head?_nil, Option.map_none']
        rw [show decodeURIComponentJS none = some "undefined" from rfl]
        rfl
      | cons v vs =>
        simp only [List.head?_cons, Option.map_some']
        have hv : ∀ ch ∈ (String.mk v).data, ¬ (ch = '%') :=
          h v (List.mem_cons_of_mem _ (List.mem_cons_self _ _))
        rw [decodeURIComponentJS_no_percent _ hv]
        rfl

theorem foldlM_addPair_isSome (pairs : List (List (List Char)))
    (h : ∀ pr ∈ pairs, ∀ v ∈ pr, ∀ ch ∈ v, ¬ (ch = '%')) :
    ∀ init, (List.foldlM addPair init pairs).isSome = true := by
  induction pairs with
  | nil => intro init; rfl
  | cons pr rest ih =>
    intro init
    obtain ⟨m1, hm1⟩ : ∃ m1, addPair init pr = some m1 := by
      have := addPair_isSome init pr (h pr (List.mem_cons_self pr rest))
      cases he : addPair init pr with
      | none => rw [he] at this; exact absurd this (by simp)
      | some m1 => exact ⟨m1, rfl⟩
    rw [List.foldlM_cons, hm1]
    show (List.foldlM addPair m1 rest).isSome = true
    exact ih (fun q hq => h q (List.mem_cons_of_mem pr hq)) m1

theorem parseHash_isSome_of_no_percent (s : String) (h : '%' ∉ s.data) :
    (parseHash s).isSome = true := by
  rw [parseHash]
  split
  · rfl
  · refine foldlM_addPair_isSome _ ?_ []
    intro pr hpr v hv ch hch e
    subst e
    obtain ⟨piece, hpiece, hpr2⟩ := List.mem_map.mp hpr
    have h1 : '%' ∈ piece :=
      splitOnChar_subset '=' piece v (hpr2 ▸ hv) '%' hch
    have h2 : '%' ∈ stripLeadingHash s.data :=
      splitOnChar_subset '&' (stripLeadingHash s.data) piece hpiece '%' h1
    exact h (stripLeadingHash_subset s.data '%' h2)

theorem prefixCheck_iff (n : List Char) : ∀ h : List Char,
    (prefixCheck n h = true ↔ n <+: h) := by
  induction n with
  | nil => intro h; simp [prefixCheck]
  | cons a as ih =>
    intro h
    cases h with
    | nil => simp [prefixCheck]
    | cons b bs => simp [prefixCheck, ih bs, List.cons_prefix_cons]

theorem infixCheck_iff (n h : List Char) : (infixCheck n h = true ↔ n <:+: h) := by
  induction h with
  | nil => simp [infixCheck, List.isEmpty_iff]
  | cons b bs ih =>
    rw [infixCheck]
    simp only [Bool.or_eq_true, prefixCheck_iff, ih, List.infix_cons_iff]

theorem jsToLower_eq_empty_iff (s : String) : (jsToLower s = "" ↔ s = "") := by
  cases s with
  | mk d =>
    constructor
    · intro h
      have : d.map Char.toLower = [] := congrArg String.data h
      cases d with
      | nil => rfl
      | cons a l => simp at this
    · intro h
      rw [h]
      rfl

theorem cacheLookup_insert_of_none (c : List (Int × BookContent)) (k : Int)
    (b : BookContent) (h : cacheLookup c k = none) :
    cacheLookup (cacheInsert c k b) k = some b := by
  have hf : c.find? (fun p => p.1 == k) = none := by
    rw [cacheLookup] at h
    cases hf : c.find? (fun p => p.1 == k) with
    | none => rfl
    | some p => rw [hf] at h; simp at h
  rw [cacheInsert, hf]
  simp only [Option.isSome_none, Bool.false_eq_true, if_false]
  rw [cacheLookup, List.find?_append, hf]
  simp [List.find?]

/-! ## Lemmas: the engine's `openBook` / `openChapter` computations -/

theorem openBook_eq_of_loads (fetch : String → Except String BookContent) (s : AppState)
    (a : JsArg) (n : Int) (book : BookContent) (opts : OpenOptions)
    (ha : toNumberArg a = JsNumV.int n)
    (hload : contentLoads fetch s n book) :
    ∃ cache1,
      cacheLookup cache1 n = some book ∧
      openBook fetch s a opts =
        (let s2 : AppState :=
          { s with bookCache := cache1, currentBookId := some (JsNumV.int n),
                   title := book.name, backHidden := false,
                   screen := Screen.chapters, noticeShown := false }
         if jsTruthyStr opts.chapter then
           openChapter s2 book.id (jsStringToNumber (opts.chapter.getD ""))
         else if opts.showChaptersOnly then s2
         else
           openChapter s2 book.id
             (JsNumV.int (match book.chapters.head? with
                          | some ch => ch.number
                          | none => 1))) := by
  rcases hload with hhit | ⟨hmiss, meta, hmeta, hfetch⟩
  · refine ⟨s.bookCache, hhit, ?_⟩
    rw [openBook]
    rw [ha]
    dsimp only
    rw [hhit]
    rfl
  · refine ⟨cacheInsert s.bookCache n book,
      cacheLookup_insert_of_none s.bookCache n book hmiss, ?_⟩
    rw [openBook]
    rw [ha]
    dsimp only
    rw [hmiss, hmeta]
    dsimp only
    rw [hfetch]
    rfl

theorem openChapter_found (s : AppState) (bookId : Int) (cnum : Int)
    (book : BookContent) (ch : Chapter)
    (hb : cacheLookup s.bookCache bookId = some book)
    (hfind : chapterMatch book (JsNumV.int cnum) = some ch) :
    openChapter s bookId (JsNumV.int cnum) =
      { s with currentChapter := some (JsNumV.int cnum),
               title := String.mk (book.name.data ++ " â€” ".data ++
                 numToChars (JsNumV.int cnum)),
               screen := Screen.verses, noticeShown := false,
               url := fragmentOf (updateHash (some (JsNumV.int bookId))
                 (some (JsNumV.int cnum))) } := by
  rw [openChapter, hb]
  dsimp only
  rw [hfind]

theorem openChapter_not_found (s : AppState) (bookId : Int) (cnum : JsNumV)
    (book : BookContent)
    (hb : cacheLookup s.bookCache bookId = some book)
    (hfind : chapterMatch book cnum = none) :
    openChapter s bookId cnum =
      { s with currentChapter := some cnum,
               title := String.mk (book.name.data ++ " â€” ".data ++ numToChars cnum),
               screen := Screen.verses, noticeShown := true } := by
  rw [openChapter, hb]
  dsimp only
  rw [hfind]

/-! ## Claim theorems -/

/-- C9: for every summaries list and cache, filtering with a query that
is empty or whitespace-only (i.e. trims to the empty string) is the
identity on the list: the search handler renders the full index
unchanged, preserving its order. -/
theorem C9_empty_query_identity (l : List BookSummary) (cache : List (Int × BookContent))
    (value : String) (h : jsTrim value = "") :
    searchFilter l cache value = l := by
  rw [searchFilter, h]
  rw [if_pos (show jsToLower "" = "" from rfl)]

/-- C9 witness: the whitespace-only query `"   "` returns the one-book
index unchanged. -/
theorem C9_empty_query_identity_wit :
    jsTrim "   " = "" ∧ searchFilter index1 [] "   " = index1 :=
  ⟨by decide, C9_empty_query_identity index1 [] "   " (by decide)⟩

/-- C10: the fragment writer `updateHash` includes a key exactly for
truthy values: a book id of `0` writes the same URL as an absent book
(and hence ChapterList(0) writes the Library URL), a chapter number of
`0` writes the same URL as an absent chapter, when no part remains the
written URL is the single space `" "`, and for nonzero values both keys
appear, book before chapter. -/
theorem C10_truthy_fragment :
    (∀ cp, updateHash (some (JsNumV.int 0)) cp = updateHash none cp) ∧
    (∀ bp, updateHash bp (some (JsNumV.int 0)) = updateHash bp none) ∧
    updateHash none none = " " ∧
    (∀ b : Int, b ≠ 0 → updateHash (some (JsNumV.int b)) none =
      String.mk ('#' :: ("book=".data ++ intChars b))) ∧
    (∀ b c : Int, b ≠ 0 → c ≠ 0 →
      updateHash (some (JsNumV.int b)) (some (JsNumV.int c)) =
        String.mk ('#' :: ("book=".data ++ intChars b ++
          '&' :: ("chapter=".data ++ intChars c)))) := by
  refine ⟨fun cp => rfl, fun bp => ?_, rfl, updateHash_book_only, updateHash_book_chapter⟩
  rfl

/-- C10 witness: book id `0` writes the Library URL (a single space);
nonzero ids write both keys. -/
theorem C10_truthy_fragment_wit :
    updateHash (some (JsNumV.int 0)) none = " " ∧
    updateHash (some (JsNumV.int 1)) (some (JsNumV.int 2)) = "#book=1&chapter=2" := by
  constructor
  · rw [C10_truthy_fragment.1 none, C10_truthy_fragment.2.2.1]
  · rw [C10_truthy_fragment.2.2.2.2 1 2 (by decide) (by decide)]
    decide

/-- C5 counterexample: with book 1 uncached, two navigations to book 1
that both start before the fetch resolves issue two network fetches,
not one — `openBook` checks only a cache hit, never a pending fetch. -/
theorem C5_duplicate_fetch_cex :
    (runNav index1 { cache := [], fetches := 0 } [NavEv.nav 1, NavEv.nav 1]).fetches = 2 ∧
    ¬ ((runNav index1 { cache := [], fetches := 0 }
        [NavEv.nav 1, NavEv.nav 1]).fetches = 1) := by
  decide

/-- C5 amended: a second navigation to the same uncached, indexed id
issues a second fetch when it arrives before the first resolve (the
engine checks only cache-hit status); it issues no new fetch once the
first fetch has resolved and populated the cache. -/
theorem C5_duplicate_fetch_amended (ix : List BookSummary) (st : FetchTrace) (id : Int)
    (book : BookContent) (hmiss : cacheLookup st.cache id = none)
    (hmeta : ∃ meta, ix.find? (fun b => b.id == id) = some meta) :
    (runNav ix st [NavEv.nav id, NavEv.nav id]).fetches = st.fetches + 2 ∧
    (runNav ix st [NavEv.nav id, NavEv.resolve id book, NavEv.nav id]).fetches
      = st.fetches + 1 := by
  obtain ⟨meta, hm⟩ := hmeta
  have hins := cacheLookup_insert_of_none st.cache id book hmiss
  constructor
  · simp [runNav, navFetchStep, hmiss, hm]
  · simp [runNav, navFetchStep, hmiss, hm, hins]

/-- C5 amended witness: concrete two-fetch and one-fetch traces for
book 1 of the one-book index. -/
theorem C5_duplicate_fetch_amended_wit :
    cacheLookup ([] : List (Int × BookContent)) 1 = none ∧
    (runNav index1 { cache := [], fetches := 0 } [NavEv.nav 1, NavEv.nav 1]).fetches = 0 + 2 ∧
    (runNav index1 { cache := [], fetches := 0 }
      [NavEv.nav 1, NavEv.resolve 1 genesisContent, NavEv.nav 1]).fetches = 0 + 1 :=
  ⟨by decide,
   (C5_duplicate_fetch_amended index1 { cache := [], fetches := 0 } 1 genesisContent
     (by decide) ⟨{ id := 1, name := "Genesis", file := "g.json" }, by decide⟩).1,
   (C5_duplicate_fetch_amended index1 { cache := [], fetches := 0 } 1 genesisContent
     (by decide) ⟨{ id := 1, name := "Genesis", file := "g.json" }, by decide⟩).2⟩

/-- C4 (code bug): from VerseList(1,1), one back() shows the chapter
list, but `currentChapter` is never reset, so a second back() re-opens
the chapter list instead of reaching Library — contradicting the back
handler's own comment ("if chapters open, go back to books") and the
spec's state machine. -/
theorem C4_back_loop_bug :
    (backClick fetch1 (openBook fetch1 (initState index1 "")
        (JsArg.num (JsNumV.int 1)) {})).screen = Screen.chapters ∧
    (backClick fetch1 (openBook fetch1 (initState index1 "")
        (JsArg.num (JsNumV.int 1)) {})).currentChapter = some (JsNumV.int 1) ∧
    (backClick fetch1 (backClick fetch1 (openBook fetch1 (initState index1 "")
        (JsArg.num (JsNumV.int 1)) {}))).screen = Screen.chapters ∧
    navStateOf (backClick fetch1 (backClick fetch1 (openBook fetch1 (initState index1 "")
        (JsArg.num (JsNumV.int 1)) {}))) = some (NavState.chapterList 1) ∧
    ¬ (navStateOf (backClick fetch1 (backClick fetch1 (openBook fetch1 (initState index1 "")
        (JsArg.num (JsNumV.int 1)) {}))) = some NavState.library) := by
  decide

/-- C6: whenever content for book `n` loads (cache hit or successful
fetch of the indexed file) and the caller requests neither a specific
chapter nor chapters-only, `openBook` opens the chapter that is the
first element of the content's `chapters` sequence (document order, not
numeric order), ending in the verse view for `(n, firstChapter.number)`
with the corresponding fragment written. -/
theorem C6_first_chapter (fetch : String → Except String BookContent) (s : AppState)
    (n : Int) (book : BookContent) (ch : Chapter) (rest : List Chapter)
    (hload : contentLoads fetch s n book)
    (hid : book.id = n)
    (hch : book.chapters = ch :: rest) :
    (openBook fetch s (JsArg.num (JsNumV.int n)) {}).screen = Screen.verses ∧
    (openBook fetch s (JsArg.num (JsNumV.int n)) {}).currentBookId
      = some (JsNumV.int n) ∧
    (openBook fetch s (JsArg.num (JsNumV.int n)) {}).currentChapter
      = some (JsNumV.int ch.number) ∧
    (openBook fetch s (JsArg.num (JsNumV.int n)) {}).noticeShown = false ∧
    (openBook fetch s (JsArg.num (JsNumV.int n)) {}).url
      = fragmentOf (updateHash (some (JsNumV.int n)) (some (JsNumV.int ch.number))) := by
  subst hid
  obtain ⟨cache1, hc1, heq⟩ :=
    openBook_eq_of_loads fetch s (JsArg.num (JsNumV.int book.id)) book.id book {} rfl hload
  have hcm : chapterMatch book (JsNumV.int ch.number) = some ch := by
    rw [chapterMatch, hch]
    simp [List.find?]
  have hopen : openBook fetch s (JsArg.num (JsNumV.int book.id)) {} =
      { s with bookCache := cache1, currentBookId := some (JsNumV.int book.id),
               backHidden := false, screen := Screen.verses,
               currentChapter := some (JsNumV.int ch.number),
               noticeShown := false,
               title := String.mk (book.name.data ++ " â€” ".data ++
                 numToChars (JsNumV.int ch.number)),
               url := fragmentOf (updateHash (some (JsNumV.int book.id))
                 (some (JsNumV.int ch.number))) } := by
    rw [heq]
    dsimp only [jsTruthyStr]
    rw [hch]
    dsimp only [List.head?]
    rw [openChapter_found _ _ _ book ch hc1 hcm]
    rfl
  rw [hopen]
  exact ⟨rfl, rfl, rfl, rfl, rfl⟩

/-- C6 witness: the spec's one-book scenario — `selectBook(1)` on the
index `[(1, Genesis, g.json)]` with a single chapter numbered 1 ends in
VerseList(1,1) with URL `#book=1&chapter=1`. -/
theorem C6_first_chapter_wit :
    contentLoads fetch1 (initState index1 "") 1 genesisContent ∧
    (openBook fetch1 (initState index1 "") (JsArg.num (JsNumV.int 1)) {}).screen
      = Screen.verses ∧
    (openBook fetch1 (initState index1 "") (JsArg.num (JsNumV.int 1)) {}).currentChapter
      = some (JsNumV.int 1) ∧
    (openBook fetch1 (initState index1 "") (JsArg.num (JsNumV.int 1)) {}).url
      = "#book=1&chapter=1" := by
  have hload : contentLoads fetch1 (initState index1 "") 1 genesisContent :=
    Or.inr ⟨by decide, { id := 1, name := "Genesis", file := "g.json" }, by decide, by rfl⟩
  have h := C6_first_chapter fetch1 (initState index1 "") 1 genesisContent
    { number := 1, verses := ["In the beginning"] } [] hload (by decide) (by decide)
  refine ⟨hload, h.1, h.2.2.1, ?_⟩
  rw [h.2.2.2.2]
  decide

/-- C7 counterexample: a content fetch returning valid JSON of an
invalid `BookContent` shape for book 1 — the engine alerts once and
reverts to Library, but the junk payload was already cached for id 1
(source line 100 precedes the TypeError thrown at line 142), so the
cache is NOT left untouched. -/
theorem C7_cache_polluted_cex :
    (openBookRaw fetchBadShape (initRawState index1 "")
      (JsArg.num (JsNumV.int 1)) {}).screen = Screen.books ∧
    (openBookRaw fetchBadShape (initRawState index1 "")
      (JsArg.num (JsNumV.int 1)) {}).currentBookId = none ∧
    (openBookRaw fetchBadShape (initRawState index1 "")
      (JsArg.num (JsNumV.int 1)) {}).currentChapter = none ∧
    (openBookRaw fetchBadShape (initRawState index1 "")
      (JsArg.num (JsNumV.int 1)) {}).alerts =
      [String.mk ("Failed to open book: ".data ++ typeErrorMsg.data)] ∧
    rawCacheLookup (openBookRaw fetchBadShape (initRawState index1 "")
      (JsArg.num (JsNumV.int 1)) {}).bookCache 1 = some (RawPayload.badShape "Genesis") ∧
    ¬ ((openBookRaw fetchBadShape (initRawState index1 "")
      (JsArg.num (JsNumV.int 1)) {}).bookCache = (initRawState index1 "").bookCache) := by
  decide

/-- C7 amended: whenever `openBook` fails for an uncached id, exactly
one alert is shown and the navigation state reverts to Library (both
ids null, books screen, back button hidden, URL and previous alerts
untouched); the cache is left untouched when the cause is a missing
index entry (NotFoundError) or a rejected fetch / JSON syntax error,
but when the fetch returns valid JSON that is not a valid BookContent
shape, the payload is cached before rendering throws, so the same
catch fires with a junk entry already added for that id. -/
theorem C7_failure_reverts_amended (fetch : String → Except String RawPayload)
    (s : RawState) (n : Int)
    (hmiss : rawCacheLookup s.bookCache n = none) :
    (s.booksIndex.find? (fun b => b.id == n) = none →
      openBookRaw fetch s (JsArg.num (JsNumV.int n)) {} =
        { s with currentBookId := none, currentChapter := none, title := "Books",
                 screen := Screen.books, backHidden := true,
                 alerts := s.alerts ++ [String.mk ("Failed to open book: ".data ++
                   "Book meta not found".data)] }) ∧
    (∀ meta e, s.booksIndex.find? (fun b => b.id == n) = some meta →
      fetch meta.file = Except.error e →
      openBookRaw fetch s (JsArg.num (JsNumV.int n)) {} =
        { s with currentBookId := none, currentChapter := none, title := "Books",
                 screen := Screen.books, backHidden := true,
                 alerts := s.alerts ++
                   [String.mk ("Failed to open book: ".data ++ e.data)] }) ∧
    (∀ meta junkName, s.booksIndex.find? (fun b => b.id == n) = some meta →
      fetch meta.file = Except.ok (RawPayload.badShape junkName) →
      openBookRaw fetch s (JsArg.num (JsNumV.int n)) {} =
        { s with bookCache := rawCacheInsert s.bookCache n (RawPayload.badShape junkName),
                 currentBookId := none, currentChapter := none, title := "Books",
                 screen := Screen.books, backHidden := true,
                 alerts := s.alerts ++ [String.mk ("Failed to open book: ".data ++
                   typeErrorMsg.data)] }) := by
  refine ⟨?_, ?_, ?_⟩
  · intro hfind
    rw [openBookRaw]
    dsimp only [toNumberArg]
    rw [hmiss, hfind]
    rfl
  · intro meta e hmeta hfetch
    rw [openBookRaw]
    dsimp only [toNumberArg]
    rw [hmiss, hmeta]
    dsimp only
    rw [hfetch]
    rfl
  · intro meta junkName hmeta hfetch
    rw [openBookRaw]
    dsimp only [toNumberArg]
    rw [hmiss, hmeta]
    dsimp only
    rw [hfetch]
    rfl

/-- C7 amended witness: `selectBook(2)` on the one-book index hits
NotFoundError with the cache untouched; `selectBook(1)` against a
shape-invalid payload reverts to Library with the junk entry cached. -/
theorem C7_failure_reverts_amended_wit :
    rawCacheLookup (initRawState index1 "").bookCache 2 = none ∧
    openBookRaw fetchBadShape (initRawState index1 "") (JsArg.num (JsNumV.int 2)) {} =
      { booksIndex := index1, bookCache := [], currentBookId := none,
        currentChapter := none, title := "Books", screen := Screen.books,
        noticeShown := false, backHidden := true, url := "",
        alerts := [String.mk ("Failed to open book: ".data ++
          "Book meta not found".data)] } ∧
    openBookRaw fetchBadShape (initRawState index1 "") (JsArg.num (JsNumV.int 1)) {} =
      { booksIndex := index1, bookCache := [(1, RawPayload.badShape "Genesis")],
        currentBookId := none, currentChapter := none, title := "Books",
        screen := Screen.books, noticeShown := false, backHidden := true, url := "",
        alerts := [String.mk ("Failed to open book: ".data ++ typeErrorMsg.data)] } :=
  ⟨by decide,
   (C7_failure_reverts_amended fetchBadShape (initRawState index1 "") 2 (by decide)).1
     (by decide),
   (C7_failure_reverts_amended fetchBadShape (initRawState index1 "") 1 (by decide)).2.2
     { id := 1, name := "Genesis", file := "g.json" } "Genesis" (by decide) (by rfl)⟩

/-- C3 counterexample: on the deep link `#book=1&chapter=99` with a
one-chapter book 1, the engine ends on the verse-page screen showing
the "Chapter not found." notice with `currentChapter = 99`, and the URL
fragment is left unchanged — not the claimed ChapterList state with URL
`#book=1`. -/
theorem C3_chapter_not_found_cex :
    (handleDeepLink fetch1 (initState index1 "#book=1&chapter=99")).map AppState.screen
      = some Screen.verses ∧
    (handleDeepLink fetch1 (initState index1 "#book=1&chapter=99")).map AppState.noticeShown
      = some true ∧
    (handleDeepLink fetch1 (initState index1 "#book=1&chapter=99")).map
        AppState.currentChapter = some (some (JsNumV.int 99)) ∧
    (handleDeepLink fetch1 (initState index1 "#book=1&chapter=99")).map AppState.url
      = some "#book=1&chapter=99" ∧
    ¬ ((handleDeepLink fetch1 (initState index1 "#book=1&chapter=99")).map AppState.screen
      = some Screen.chapters) ∧
    ¬ ((handleDeepLink fetch1 (initState index1 "#book=1&chapter=99")).map AppState.url
      = some "#book=1") := by
  decide

/-- C3 amended: for every cached-or-fetched book and deep-linked chapter
value with no exact `chapter.number` match, the navigation ends on the
verse-page screen displaying the non-fatal "Chapter not found." notice,
with `currentChapter` set to the unmatched number, and the URL fragment
and alerts left unchanged (no `#book=<id>` rewrite happens, because
`openChapter` returns before `updateHash`). -/
theorem C3_chapter_not_found_amended (fetch : String → Except String BookContent)
    (s : AppState) (bs cs : String) (n : Int) (book : BookContent)
    (hb : jsStringToNumber bs = JsNumV.int n)
    (hload : contentLoads fetch s n book)
    (hid : book.id = n)
    (hcs : ¬ (cs = ""))
    (hno : chapterMatch book (jsStringToNumber cs) = none) :
    (openBook fetch s (JsArg.str bs) { chapter := some cs }).screen = Screen.verses ∧
    (openBook fetch s (JsArg.str bs) { chapter := some cs }).noticeShown = true ∧
    (openBook fetch s (JsArg.str bs) { chapter := some cs }).currentBookId
      = some (JsNumV.int n) ∧
    (openBook fetch s (JsArg.str bs) { chapter := some cs }).currentChapter
      = some (jsStringToNumber cs) ∧
    (openBook fetch s (JsArg.str bs) { chapter := some cs }).url = s.url ∧
    (openBook fetch s (JsArg.str bs) { chapter := some cs }).alerts = s.alerts := by
  subst hid
  obtain ⟨cache1, hc1, heq⟩ := openBook_eq_of_loads fetch s (JsArg.str bs) book.id book
    { chapter := some cs } hb hload
  have hd : decide (¬ (cs = "")) = true := decide_eq_true hcs
  have hopen : openBook fetch s (JsArg.str bs) { chapter := some cs } =
      { s with bookCache := cache1, currentBookId := some (JsNumV.int book.id),
               backHidden := false, screen := Screen.verses,
               currentChapter := some (jsStringToNumber cs),
               noticeShown := true,
               title := String.mk (book.name.data ++ " â€” ".data ++
                 numToChars (jsStringToNumber cs)) } := by
    rw [heq]
    dsimp only [jsTruthyStr]
    rw [hd]
    rw [if_pos rfl]
    dsimp only [Option.getD]
    rw [openChapter_not_found _ _ _ book hc1 hno]
  rw [hopen]
  exact ⟨rfl, rfl, rfl, rfl, rfl, rfl⟩

/-- C3 amended witness: the deepLink(1, 99) scenario through `openBook`
with chapter string "99" against the one-chapter book 1. -/
theorem C3_chapter_not_found_amended_wit :
    jsStringToNumber "1" = JsNumV.int 1 ∧
    chapterMatch genesisContent (jsStringToNumber "99") = none ∧
    (openBook fetch1 (initState index1 "#book=1&chapter=99") (JsArg.str "1")
      { chapter := some "99" }).screen = Screen.verses ∧
    (openBook fetch1 (initState index1 "#book=1&chapter=99") (JsArg.str "1")
      { chapter := some "99" }).noticeShown = true ∧
    (openBook fetch1 (initState index1 "#book=1&chapter=99") (JsArg.str "1")
      { chapter := some "99" }).url = "#book=1&chapter=99" := by
  have hload : contentLoads fetch1 (initState index1 "#book=1&chapter=99") 1 genesisContent :=
    Or.inr ⟨by decide, { id := 1, name := "Genesis", file := "g.json" }, by decide, by rfl⟩
  have h := C3_chapter_not_found_amended fetch1 (initState index1 "#book=1&chapter=99")
    "1" "99" 1 genesisContent (by decide) hload (by decide) (by decide) (by decide)
  exact ⟨by decide, by decide, h.1, h.2.1, h.2.2.2.2.1⟩

/-- C8: for a query that does not trim to the empty string, the search
handler returns exactly the order-preserving subsequence of the index
matching the spec's predicate: the lowered name contains the lowered
trimmed query, or the book is in the cache and some verse of some
chapter contains it; books absent from the cache are matched on their
name alone. -/
theorem C8_filter_spec (l : List BookSummary) (cache : List (Int × BookContent))
    (value : String) (h : ¬ (jsTrim value = "")) :
    List.Sublist (searchFilter l cache value) l ∧
    ∀ b, (b ∈ searchFilter l cache value ↔
      b ∈ l ∧ specMatch cache (jsTrim value) b) := by
  have hq : ¬ (jsToLower (jsTrim value) = "") :=
    fun e => h ((jsToLower_eq_empty_iff _).mp e)
  rw [searchFilter, if_neg hq]
  refine ⟨List.filter_sublist l, fun b => ?_⟩
  rw [List.mem_filter]
  constructor
  · rintro ⟨hmem, hp⟩
    refine ⟨hmem, ?_⟩
    by_cases hname : jsIncludes (jsToLower b.name) (jsToLower (jsTrim value)) = true
    · exact Or.inl ((infixCheck_iff _ _).mp hname)
    · rw [if_neg hname] at hp
      cases hc : cacheLookup cache b.id with
      | none => rw [hc] at hp; simp at hp
      | some content =>
        rw [hc] at hp
        obtain ⟨chp, hchp, hv⟩ := List.any_eq_true.mp hp
        obtain ⟨v, hvmem, hvq⟩ := List.any_eq_true.mp hv
        exact Or.inr ⟨content, hc, chp, hchp, v, hvmem, (infixCheck_iff _ _).mp hvq⟩
  · rintro ⟨hmem, hmatch⟩
    refine ⟨hmem, ?_⟩
    by_cases hname : jsIncludes (jsToLower b.name) (jsToLower (jsTrim value)) = true
    · rw [if_pos hname]
    · rw [if_neg hname]
      rcases hmatch with hciname | ⟨content, hc, chp, hchp, v, hvmem, hvq⟩
      · exact absurd ((infixCheck_iff _ _).mpr hciname) hname
      · rw [hc]
        exact List.any_eq_true.mpr
          ⟨chp, hchp, List.any_eq_true.mpr ⟨v, hvmem, (infixCheck_iff _ _).mpr hvq⟩⟩

/-- C8 witness: the trimmed query "Begin" (typed as " Begin ") matches
book 1 through its cached verse text, case-insensitively. -/
theorem C8_filter_spec_wit :
    ¬ (jsTrim " Begin " = "") ∧
    (({ id := 1, name := "Genesis", file := "g.json" } : BookSummary)
        ∈ searchFilter index1 [(1, genesisContent)] " Begin " ↔
      ({ id := 1, name := "Genesis", file := "g.json" } : BookSummary) ∈ index1 ∧
        specMatch [(1, genesisContent)] (jsTrim " Begin ")
          { id := 1, name := "Genesis", file := "g.json" }) :=
  ⟨by decide,
   (C8_filter_spec index1 [(1, genesisContent)] " Begin " (by decide)).2
     { id := 1, name := "Genesis", file := "g.json" }⟩

/-- C2 counterexample: a pair with no `=` is not dropped silently —
`#book` parses to a record containing `book = "undefined"` — and
`parseHash` is not total: `#book=%` raises URIError
(`decodeURIComponent` throws on a malformed percent escape). -/
theorem C2_decode_cex :
    parseHash "#book" = some [("book", "undefined")] ∧
    parseHash "#book=%" = none := by
  decide

/-- C2 amended: `parseHash` splits on `&` then `=`; pairs with an empty
key are skipped; a pair with no `=` is kept with the string value
"undefined" rather than dropped; values are kept without numeric
validation; it never raises on a fragment containing no `%`, though a
malformed percent-encoding does raise; and whenever the parse yields no
truthy `book` value, the caller `handleDeepLink` performs no navigation
(the library stays shown). -/
theorem C2_decode_amended :
    (∀ s : String, '%' ∉ s.data → (parseHash s).isSome = true) ∧
    (∀ (fetch : String → Except String BookContent) (st : AppState)
        (m : List (String × String)),
      parseHash st.url = some m → jsTruthyStr (m.lookup "book") = false →
      handleDeepLink fetch st = some st) ∧
    parseHash "#book" = some [("book", "undefined")] := by
  refine ⟨parseHash_isSome_of_no_percent, ?_, by decide⟩
  intro fetch st m hm hb
  rw [handleDeepLink, hm]
  dsimp only
  rw [hb]
  rfl

/-- C2 amended witness: `#foo=bar` has no `%` so the parse succeeds, the
record has no `book` key, and the deep-link handler leaves the state
unchanged. -/
theorem C2_decode_amended_wit :
    ('%' ∉ ("#foo=bar" : String).data) ∧
    (parseHash "#foo=bar").isSome = true ∧
    handleDeepLink fetch1 (initState index1 "#foo=bar")
      = some (initState index1 "#foo=bar") :=
  ⟨by decide, C2_decode_amended.1 "#foo=bar" (by decide),
   C2_decode_amended.2.1 fetch1 (initState index1 "#foo=bar") [("foo", "bar")]
     (by decide) (by decide)⟩

/-- C1 counterexample: book ids are integers, so a book with id 0 is
admissible; `openBook(0)` reaches VerseList(0, 1), whose encoding drops
the falsy `book` key (`#chapter=1`), and decoding that fragment yields
no book id at all — `decode(encode(s)) ≠ s` for this reachable state. -/
theorem C1_roundtrip_cex :
    navStateOf (openBook fetch0 (initState index0 "") (JsArg.num (JsNumV.int 0)) {})
      = some (NavState.verseList 0 1) ∧
    (openBook fetch0 (initState index0 "") (JsArg.num (JsNumV.int 0)) {}).url
      = "#chapter=1" ∧
    decodeNavRec (fragmentOf (encodeNav (NavState.verseList 0 1)))
      = some (none, some (JsNumV.int 1)) ∧
    ¬ (decodeNavRec (fragmentOf (encodeNav (NavState.verseList 0 1)))
      = some (stateRec (NavState.verseList 0 1))) := by
  decide

/-- C1 amended: the deep-link round trip `decode(encode(s)) = s` holds
for every navigation state whose book id — and chapter number, when
present — is nonzero: the Library fragment decodes to the empty record,
and the `book`/`chapter` values decode (via the caller's `Number`
conversion) to integers equal to those of `s`. -/
theorem C1_roundtrip_amended :
    decodeNavRec (fragmentOf (encodeNav NavState.library))
      = some (stateRec NavState.library) ∧
    (∀ b : Int, b ≠ 0 →
      decodeNavRec (fragmentOf (encodeNav (NavState.chapterList b)))
        = some (stateRec (NavState.chapterList b))) ∧
    (∀ b c : Int, b ≠ 0 → c ≠ 0 →
      decodeNavRec (fragmentOf (encodeNav (NavState.verseList b c)))
        = some (stateRec (NavState.verseList b c))) := by
  refine ⟨by decide, ?_, ?_⟩
  · intro b hb
    rw [encodeNav]
    dsimp only [stateParams]
    rw [updateHash_book_only b hb, fragmentOf_hashed, decodeNavRec, parseHash_book b]
    simp only [Option.map_some']
    rw [lookup_book_one, lookup_chapter_one]
    simp only [Option.map_some', Option.map_none']
    rw [jsStringToNumber_intToString]
    rfl
  · intro b c hb hc
    rw [encodeNav]
    dsimp only [stateParams]
    rw [updateHash_book_chapter b c hb hc, fragmentOf_hashed, decodeNavRec,
        parseHash_book_chapter b c]
    simp only [Option.map_some']
    rw [lookup_book_two, lookup_chapter_two]
    simp only [Option.map_some']
    rw [jsStringToNumber_intToString, jsStringToNumber_intToString]
    rfl

/-- C1 amended witness: the round trip at ChapterList(1) and
VerseList(1, 2). -/
theorem C1_roundtrip_amended_wit :
    decodeNavRec (fragmentOf (encodeNav (NavState.chapterList 1)))
      = some (stateRec (NavState.chapterList 1)) ∧
    decodeNavRec (fragmentOf (encodeNav (NavState.verseList 1 2)))
      = some (stateRec (NavState.verseList 1 2)) :=
  ⟨C1_roundtrip_amended.2.1 1 (by decide),
   C1_roundtrip_amended.2.2 1 2 (by decide) (by decide)⟩
